import Mathlib

/-!
# Verification of the bitunix-lookup-relay servers

Shallow embedding of the two Express servers in this repository:
the sheet-relay server (the `/upload` retry pipeline and the `/fetch-pif`
read-through fetch of `src/unnamed/part_000`, whose `/upload` handler is
also the second document of `src/server.js`), and the bitunix relay server
(the `/fetch-pif`, `/update-symbols` and `/symbols/tradingview` handlers of
the first document of `src/server.js`).

HTTP requests and outbound attempts are modelled by explicit data; the
destination is modelled as an oracle giving the result of each outbound
attempt. Wall-clock time is not modelled; what is modelled is whether a
response body carries an `elapsed` field and how much fixed backoff the
handler sleeps.
-/

namespace BitunixRelay

/-- A JSON field that is expected to hold a sequence.  `missing` covers the
field being absent or a JS-falsy value (the source guards with
`!field || !Array.isArray(field)`); `nonSeq` covers a truthy non-array
value. -/
inductive JField (α : Type) where
  | missing
  | nonSeq
  | seq (xs : List α)
deriving DecidableEq, Repr

/-- A row of cell values, as sent by the scraper extensions. -/
abbrev Row := List String

/-- The JSON body of a POST `/upload` request: optional `sheetName`,
the `values` field, and the optional `googleScriptUrl` override. -/
structure UploadBody where
  sheetName : Option String
  values : JField Row
  googleScriptUrl : Option String
deriving DecidableEq, Repr

/-- JS `a || d` on an (optional) string: the default is used when the field
is absent or the empty string (both JS-falsy). -/
def jsOr (a : Option String) (d : String) : String :=
  match a with
  | none => d
  | some s => if s = "" then d else s

/-- JS `String.prototype.trim`: strip leading and trailing whitespace,
modelled over the underlying character list. -/
def jsTrim (s : String) : String :=
  ⟨((s.data.dropWhile Char.isWhitespace).reverse.dropWhile Char.isWhitespace).reverse⟩

/-- `const scriptUrl = (body.googleScriptUrl && String(body.googleScriptUrl).trim()) || DEFAULT_GOOGLE_SCRIPT;` -/
def resolveScriptUrl (defaultUrl : String) (googleScriptUrl : Option String) : String :=
  match googleScriptUrl with
  | none => defaultUrl
  | some u => if u = "" then defaultUrl else if jsTrim u = "" then defaultUrl else jsTrim u

/-- The normalized envelope forwarded to the destination:
`{ sheetName: body.sheetName || "Sheet1", values: body.values }`.
It has exactly these two fields; the override URL is not part of it. -/
structure Forward where
  sheetName : String
  values : List Row
deriving DecidableEq, Repr

/-- Build the forwarded envelope from a request body whose `values`
validated to the sequence `vs`. -/
def forwardOf (body : UploadBody) (vs : List Row) : Forward :=
  { sheetName := jsOr body.sheetName "Sheet1", values := vs }

/-- What one outbound POST attempt produces: a network-level error
(timeout, connection failure — `fetch` throws), or an HTTP response with a
status and a body text. -/
inductive AttemptResult where
  | netErr (msg : String)
  | httpResp (status : Nat) (body : String)
deriving DecidableEq, Repr

/-- `r.ok || r.status === 302`: node-fetch `ok` is status 200–299. -/
def isSuccessStatus (status : Nat) : Bool :=
  (200 ≤ status && status < 300) || status == 302

/-- A transient attempt result: a network-level error or a status ≥ 500.
These are the results the `/upload` loop retries. -/
def isTransient : AttemptResult → Bool
  | .netErr _ => true
  | .httpResp status _ => 500 ≤ status

/-- How the `/upload` retry loop ended: an accepted upstream response, the
inline 502 carrying the upstream status and body (`Forward failed ⟨status⟩`),
or falling out of the loop with the last error (`Forward failed after retry`). -/
inductive LoopOut where
  | success (status : Nat) (text : String)
  | permFail (status : Nat) (gasResponse : String)
  | exhausted (lastErr : Option String)
deriving DecidableEq, Repr

/-- Result of running the retry loop: its outcome, the number of outbound
attempts made, and the total fixed backoff slept (in ms). -/
structure LoopResult where
  out : LoopOut
  attempts : Nat
  backoffMs : Nat
deriving DecidableEq, Repr

/-- The `/upload` retry loop.  `tryCount` attempts have been made so far;
the loop runs `while (tryCount < maxTries)` with `maxTries = 2` at the call
site.  Attempt number `tryCount` (0-based) queries the oracle; a success
status returns immediately; a 5xx with a remaining try, or a network error
with a remaining try, sleeps 500ms and retries; any other failure status
returns the inline 502; a network error on the last try falls out of the
loop with `lastErr` set.  `fuel` only makes the recursion structural; the
loop is entered with `fuel = maxTries`, which bounds the remaining
iterations, so the `fuel = 0` case is never reached. -/
def uploadLoop (o : Nat → AttemptResult) (maxTries : Nat) :
    (fuel : Nat) → (tryCount : Nat) → (lastErr : Option String) → (backoff : Nat) → LoopResult
  | 0, tryCount, lastErr, backoff => ⟨.exhausted lastErr, tryCount, backoff⟩
  | fuel + 1, tryCount, lastErr, backoff =>
    if tryCount < maxTries then
      match o tryCount with
      | .httpResp status body =>
        if isSuccessStatus status then
          ⟨.success status body, tryCount + 1, backoff⟩
        else if 500 ≤ status ∧ tryCount + 1 < maxTries then
          uploadLoop o maxTries fuel (tryCount + 1)
            (some ("Non-OK response " ++ toString status)) (backoff + 500)
        else
          ⟨.permFail status body, tryCount + 1, backoff⟩
      | .netErr msg =>
        if tryCount + 1 < maxTries then
          uploadLoop o maxTries fuel (tryCount + 1) (some msg) (backoff + 500)
        else
          ⟨.exhausted (some msg), tryCount + 1, backoff⟩
    else
      ⟨.exhausted lastErr, tryCount, backoff⟩

/-- The JSON body the `/upload` handler answers with.  An `Option` field
set to `none` means the field is absent from the response object;
`elapsedReported` records whether the body carries an `elapsed` field
(its value is wall-clock time, which is not modelled). -/
structure UploadResponse where
  httpStatus : Nat
  ok : Bool
  forwarded : Option Bool := none
  status : Option Nat := none
  text : Option String := none
  gasResponse : Option String := none
  error : Option String := none
  details : Option String := none
  elapsedReported : Bool
deriving DecidableEq, Repr

/-- Everything observable about one `/upload` request: the response sent,
the loop outcome (`none` when validation failed before the loop), the
number of outbound attempts, the total backoff slept, and the envelope
forwarded to the destination (`none` when no outbound call was made). -/
structure UploadResult where
  response : UploadResponse
  outcome : Option LoopOut
  attempts : Nat
  backoffMs : Nat
  forwardedBody : Option Forward
deriving DecidableEq, Repr

/-- The 400 response for a missing or non-array `values`. -/
def invalidValuesResult : UploadResult :=
  { response := { httpStatus := 400, ok := false,
                  error := some "Missing or invalid \x27values\x27 array in payload.",
                  elapsedReported := false },
    outcome := none, attempts := 0, backoffMs := 0, forwardedBody := none }

/-- Map the loop outcome to the handler response, as the three `return`
sites of the handler do.  Only the inline 502 (`permFail`) omits the
`elapsed` field. -/
def respondLoop (fwd : Forward) (r : LoopResult) : UploadResult :=
  match r.out with
  | .success st text =>
    { response := { httpStatus := 200, ok := true, forwarded := some true,
                    status := some st, text := some text, elapsedReported := true },
      outcome := some (.success st text), attempts := r.attempts,
      backoffMs := r.backoffMs, forwardedBody := some fwd }
  | .permFail st gas =>
    { response := { httpStatus := 502, ok := false,
                    error := some ("Forward failed " ++ toString st),
                    status := some st, gasResponse := some gas,
                    elapsedReported := false },
      outcome := some (.permFail st gas), attempts := r.attempts,
      backoffMs := r.backoffMs, forwardedBody := some fwd }
  | .exhausted lastErr =>
    { response := { httpStatus := 502, ok := false,
                    error := some "Forward failed after retry",
                    details := lastErr, elapsedReported := true },
      outcome := some (.exhausted lastErr), attempts := r.attempts,
      backoffMs := r.backoffMs, forwardedBody := some fwd }

/-- The POST `/upload` handler: resolve the script URL (400 if none),
validate `values` (400 if missing or not an array), build the forwarded
envelope, run the bounded retry loop, and map its outcome to a response. -/
def processUpload (defaultScriptUrl : String) (body : UploadBody)
    (o : Nat → AttemptResult) : UploadResult :=
  if resolveScriptUrl defaultScriptUrl body.googleScriptUrl = "" then
    { response := { httpStatus := 400, ok := false,
                    error := some "No script URL configured.",
                    elapsedReported := false },
      outcome := none, attempts := 0, backoffMs := 0, forwardedBody := none }
  else
    match body.values with
    | .seq vs => respondLoop (forwardOf body vs) (uploadLoop o 2 2 0 none 0)
    | .missing => invalidValuesResult
    | .nonSeq => invalidValuesResult

/-- The catch-all 500 of the `/upload` handler:
`{ ok:false, error:"Internal server error", details: err.message, elapsed }`.
It does carry an `elapsed` field. -/
def internalErrorResponse (msg : String) : UploadResponse :=
  { httpStatus := 500, ok := false, error := some "Internal server error",
    details := some msg, elapsedReported := true }

/-- The full POST `/upload` handler including its `try/catch`: the whole
pipeline runs inside a `try` block whose `catch` answers the internal-error
500.  `exn = some msg` models an unexpected exception with message `msg`
escaping the `try` block (the pipeline embedding itself is total, so such
exceptions come from outside the modelled logic — body parsing, response
serialization); `exn = none` is the non-exceptional case, in which the
response is the pipeline's. -/
def uploadHandler (defaultScriptUrl : String) (body : UploadBody)
    (o : Nat → AttemptResult) (exn : Option String) : UploadResponse :=
  match exn with
  | some msg => internalErrorResponse msg
  | none => (processUpload defaultScriptUrl body o).response

/-! ## Read-through fetch (`GET /fetch-pif`) -/

/-- The upstream JSON envelope returned by the PIF Apps Script: a `success`
flag and a `data` sequence of opaque entries (modelled as strings). -/
structure PifEnvelope where
  success : Bool
  data : List String
deriving DecidableEq, Repr

/-- What the single outbound GET of `/fetch-pif` produces: a transport-level
error (`fetch` throws), or an HTTP response with a status and a parsed
envelope. -/
inductive FetchAttempt where
  | netErr (msg : String)
  | httpResp (status : Nat) (env : PifEnvelope)
deriving DecidableEq, Repr

/-- The JSON body `/fetch-pif` answers with (`data`/`error` set to `none`
when the field is absent). -/
structure FetchResponse where
  httpStatus : Nat
  success : Bool
  data : Option (List String) := none
  error : Option String := none
deriving DecidableEq, Repr

/-- The `/fetch-pif` handler of the sheet-relay server
(`src/unnamed/part_000`): it throws on `!response.ok` (caught as a 500 with
message `PIF Apps Script returned ⟨status⟩`), then checks the envelope
`success` flag; a transport error is caught as a 500 with the error
message. -/
def fetchPifSheetRelay (r : FetchAttempt) : FetchResponse :=
  match r with
  | .netErr msg => { httpStatus := 500, success := false, error := some msg }
  | .httpResp status env =>
    if ¬ (200 ≤ status ∧ status < 300) then
      { httpStatus := 500, success := false,
        error := some ("PIF Apps Script returned " ++ toString status) }
    else if env.success then
      { httpStatus := 200, success := true, data := some env.data }
    else
      { httpStatus := 500, success := false, error := some "Failed to fetch PIF data" }

/-- The `/fetch-pif` handler of the bitunix relay server (`src/server.js`,
first document): it parses the body and checks the envelope `success` flag
without ever inspecting the HTTP status; a transport error is caught as a
500 with the error message. -/
def fetchPifBitunix (r : FetchAttempt) : FetchResponse :=
  match r with
  | .netErr msg => { httpStatus := 500, success := false, error := some msg }
  | .httpResp _ env =>
    if env.success then
      { httpStatus := 200, success := true, data := some env.data }
    else
      { httpStatus := 500, success := false, error := some "Failed to fetch PIF data" }

/-- Failure cases of the read-through fetch as the spec states them: the
transport fails, the destination returns a non-success HTTP status, or the
parsed envelope carries `success:false`. -/
def specFetchFailureCase : FetchAttempt → Bool
  | .netErr _ => true
  | .httpResp status env => !(200 ≤ status && status < 300) || !env.success

/-- Failure cases actually implemented by the bitunix server handler: the
transport fails or the parsed envelope carries `success:false` — the HTTP
status is never consulted. -/
def bitunixFetchFailureCase : FetchAttempt → Bool
  | .netErr _ => true
  | .httpResp _ env => !env.success

/-- The upstream data carried by an attempt (empty for a transport error). -/
def attemptData : FetchAttempt → List String
  | .netErr _ => []
  | .httpResp _ env => env.data

/-! ## Symbol cache (`POST /update-symbols`, `GET /symbols/tradingview`) -/

/-- The in-memory snapshot `tradingViewSymbols`.  `timestamp` is `none` for
the JSON `null` of the initial state. -/
structure Snapshot where
  symbols : List String
  fullData : List String
  timestamp : Option String
deriving DecidableEq, Repr

/-- `let tradingViewSymbols = { symbols: [], fullData: [], timestamp: null };` -/
def initialSnapshot : Snapshot :=
  { symbols := [], fullData := [], timestamp := none }

/-- The JSON body of a POST `/update-symbols` request.  `fullData` entries
are opaque records (modelled as strings); `fullData`/`timestamp` are `none`
when absent (or JS-falsy). -/
structure SymbolsBody where
  symbols : JField String
  fullData : Option (List String)
  timestamp : Option String
deriving DecidableEq, Repr

/-- The JSON body `/update-symbols` answers with. -/
structure SymbolsWriteResponse where
  httpStatus : Nat
  success : Bool
  message : Option String := none
  count : Option Nat := none
  error : Option String := none
deriving DecidableEq, Repr

/-- The POST `/update-symbols` handler: reject a missing or non-array
`symbols` with a 400 (leaving the snapshot as it was); otherwise replace
the whole snapshot with `{ symbols, fullData: fullData || [],
timestamp: timestamp || now }` and answer with the count stored. -/
def updateSymbols (prev : Snapshot) (now : String) (body : SymbolsBody) :
    Snapshot × SymbolsWriteResponse :=
  match body.symbols with
  | .seq xs =>
    ({ symbols := xs, fullData := body.fullData.getD [],
       timestamp := some (jsOr body.timestamp now) },
     { httpStatus := 200, success := true,
       message := some (toString xs.length ++ " symbols stored"),
       count := some xs.length })
  | .missing =>
    (prev, { httpStatus := 400, success := false, error := some "Invalid symbols format" })
  | .nonSeq =>
    (prev, { httpStatus := 400, success := false, error := some "Invalid symbols format" })

/-- The JSON body `/symbols/tradingview` answers with.  The outer `Option`
on `timestamp` marks whether the field is present at all (the sentinel
response has no `timestamp` field); the inner one is the stored value,
which is JSON `null` in the initial state. -/
structure SymbolsReadResponse where
  httpStatus : Nat
  success : Bool
  message : Option String := none
  symbols : List String
  count : Nat
  timestamp : Option (Option String) := none
deriving DecidableEq, Repr

/-- The sentinel answered when no symbols are held. -/
def noSymbolsResponse : SymbolsReadResponse :=
  { httpStatus := 200, success := false,
    message := some "No symbols available. Run BitUnix scraper first.",
    symbols := [], count := 0 }

/-- The GET `/symbols/tradingview` handler: the sentinel when the held
symbol list is empty, else the snapshot contents. -/
def getSymbols (snap : Snapshot) : SymbolsReadResponse :=
  if snap.symbols.length = 0 then
    noSymbolsResponse
  else
    { httpStatus := 200, success := true, symbols := snap.symbols,
      count := snap.symbols.length, timestamp := some snap.timestamp }

/-! ## Concrete sample inputs used to instantiate the theorems -/

/-- A well-formed upload request: one row, no sheet name, no override. -/
def sampleBody : UploadBody :=
  { sheetName := none, values := .seq [["BTCUSD", "1.23"]], googleScriptUrl := none }

/-- A configured default destination URL. -/
def sampleUrl : String := "https://example.com/exec"

/-- A destination answering 403 Forbidden on every attempt. -/
def oracle403 : Nat → AttemptResult := fun _ => .httpResp 403 "Forbidden"

/-- A destination answering 500 on the first attempt and 200 on the second. -/
def oracle500then200 : Nat → AttemptResult := fun n =>
  if n = 0 then .httpResp 500 "oops" else .httpResp 200 "done"

/-- A destination answering 302 on every attempt. -/
def oracle302 : Nat → AttemptResult := fun _ => .httpResp 302 "redirect"

/-- A destination whose every attempt fails at the network level. -/
def oracleTimeout : Nat → AttemptResult := fun _ => .netErr "network timeout"

/-! ## Helper lemmas -/

lemma isSuccessStatus_of_ge_500 {st : Nat} (h : 500 ≤ st) : isSuccessStatus st = false := by
  simp [isSuccessStatus]
  omega

lemma respondLoop_attempts (fwd : Forward) (r : LoopResult) :
    (respondLoop fwd r).attempts = r.attempts := by
  rcases r with ⟨out, a, bk⟩
  cases out <;> rfl

lemma respondLoop_backoffMs (fwd : Forward) (r : LoopResult) :
    (respondLoop fwd r).backoffMs = r.backoffMs := by
  rcases r with ⟨out, a, bk⟩
  cases out <;> rfl

lemma respondLoop_forwardedBody (fwd : Forward) (r : LoopResult) :
    (respondLoop fwd r).forwardedBody = some fwd := by
  rcases r with ⟨out, a, bk⟩
  cases out <;> rfl

/-- On a request with valid `values` and a resolvable script URL, the
handler is the retry loop followed by the response mapping. -/
lemma processUpload_valid (d : String) (b : UploadBody) (o : Nat → AttemptResult)
    (vs : List Row) (hv : b.values = JField.seq vs)
    (hu : resolveScriptUrl d b.googleScriptUrl ≠ "") :
    processUpload d b o = respondLoop (forwardOf b vs) (uploadLoop o 2 2 0 none 0) := by
  unfold processUpload
  simp [hu, hv]

/-- Whatever the oracle does, the loop never makes more than `maxTries`
attempts (provided it starts at most at `maxTries`). -/
lemma uploadLoop_attempts_le (o : Nat → AttemptResult) (mt : Nat) :
    ∀ (fuel t : Nat) (l : Option String) (bk : Nat), t ≤ mt →
      (uploadLoop o mt fuel t l bk).attempts ≤ mt := by
  intro fuel
  induction fuel with
  | zero => intro t l bk ht; simpa [uploadLoop] using ht
  | succ f ih =>
    intro t l bk ht
    simp only [uploadLoop]
    split
    · split
      · split
        · simpa using ‹t < mt›
        · split
          · exact ih (t + 1) _ _ (by omega)
          · simpa using ‹t < mt›
      · split
        · exact ih (t + 1) _ _ (by omega)
        · simpa using ‹t < mt›
    · simpa using ht

/-- The handler makes at most two outbound attempts, whatever the request
and the destination do. -/
lemma processUpload_attempts_le_two (d : String) (b : UploadBody)
    (o : Nat → AttemptResult) : (processUpload d b o).attempts ≤ 2 := by
  unfold processUpload
  split
  · simp
  · split
    · rw [respondLoop_attempts]
      exact uploadLoop_attempts_le o 2 2 0 none 0 (by omega)
    · simp [invalidValuesResult]
    · simp [invalidValuesResult]

/-- After a transient first attempt, the loop is decided by the second
attempt: an accepted status succeeds, any other response is the inline 502,
and a network error falls out of the loop; two attempts and 500ms of
backoff either way. -/
lemma uploadLoop_transient_first (o : Nat → AttemptResult)
    (h0 : isTransient (o 0) = true) :
    uploadLoop o 2 2 0 none 0 =
      match o 1 with
      | .httpResp st body =>
        if isSuccessStatus st then ⟨.success st body, 2, 500⟩
        else ⟨.permFail st body, 2, 500⟩
      | .netErr msg => ⟨.exhausted (some msg), 2, 500⟩ := by
  have step2 : ∀ l : Option String, uploadLoop o 2 1 1 l 500 =
      match o 1 with
      | .httpResp st body =>
        if isSuccessStatus st then ⟨.success st body, 2, 500⟩
        else ⟨.permFail st body, 2, 500⟩
      | .netErr msg => ⟨.exhausted (some msg), 2, 500⟩ := by
    intro l
    cases h1 : o 1 with
    | netErr msg => simp [uploadLoop, h1]
    | httpResp st body =>
      by_cases hs : isSuccessStatus st <;> simp [uploadLoop, h1, hs]
  cases h : o 0 with
  | netErr msg =>
    rw [show uploadLoop o 2 2 0 none 0 = uploadLoop o 2 1 1 (some msg) 500 by
      simp [uploadLoop, h]]
    exact step2 _
  | httpResp st body =>
    have hst : 500 ≤ st := by simpa [isTransient, h] using h0
    rw [show uploadLoop o 2 2 0 none 0 =
        uploadLoop o 2 1 1 (some ("Non-OK response " ++ toString st)) 500 by
      simp [uploadLoop, h, isSuccessStatus_of_ge_500 hst, hst]]
    exact step2 _

/-! ## Claim theorems -/

/-- C1: an upload request whose `values` field is missing or not a sequence
gets a 400 response with `ok:false`, and no outbound attempt is made (the
validation failure occurs before any network call, so nothing is forwarded). -/
theorem upload_invalid_values_rejected (d : String) (b : UploadBody)
    (o : Nat → AttemptResult)
    (h : b.values = JField.missing ∨ b.values = JField.nonSeq) :
    (processUpload d b o).response.httpStatus = 400 ∧
    (processUpload d b o).response.ok = false ∧
    (processUpload d b o).attempts = 0 ∧
    (processUpload d b o).forwardedBody = none := by
  unfold processUpload
  by_cases hu : resolveScriptUrl d b.googleScriptUrl = "" <;>
    rcases h with h | h <;> simp [hu, h, invalidValuesResult]

/-- Witness for C1 at a concrete request with a missing `values` field. -/
theorem upload_invalid_values_rejected_witness :
    (processUpload sampleUrl
        { sheetName := none, values := JField.missing, googleScriptUrl := none }
        oracle403).response.httpStatus = 400 ∧
    (processUpload sampleUrl
        { sheetName := none, values := JField.missing, googleScriptUrl := none }
        oracle403).response.ok = false ∧
    (processUpload sampleUrl
        { sheetName := none, values := JField.missing, googleScriptUrl := none }
        oracle403).attempts = 0 ∧
    (processUpload sampleUrl
        { sheetName := none, values := JField.missing, googleScriptUrl := none }
        oracle403).forwardedBody = none :=
  upload_invalid_values_rejected sampleUrl _ oracle403 (Or.inl rfl)

/-- C2: on a valid request whose first attempt is transient (network error
or 5xx), the relay sleeps 500ms and retries exactly once — two attempts,
500ms of backoff; at most 2 attempts are ever made on any request; if the
second attempt has a success status the response is `ok:true` with that
status; if the second attempt is also transient the response is a 502 with
`ok:false` carrying the last error detail. -/
theorem upload_transient_retries_once (d : String) (b : UploadBody)
    (o : Nat → AttemptResult) (vs : List Row)
    (hv : b.values = JField.seq vs)
    (hu : resolveScriptUrl d b.googleScriptUrl ≠ "")
    (h0 : isTransient (o 0) = true) :
    (∀ (d2 : String) (b2 : UploadBody) (o2 : Nat → AttemptResult),
      (processUpload d2 b2 o2).attempts ≤ 2) ∧
    (processUpload d b o).attempts = 2 ∧
    (processUpload d b o).backoffMs = 500 ∧
    (∀ st txt, o 1 = .httpResp st txt → isSuccessStatus st = true →
      (processUpload d b o).response.ok = true ∧
      (processUpload d b o).response.httpStatus = 200 ∧
      (processUpload d b o).response.status = some st) ∧
    (isTransient (o 1) = true →
      (processUpload d b o).response.httpStatus = 502 ∧
      (processUpload d b o).response.ok = false ∧
      (∀ msg, o 1 = .netErr msg → (processUpload d b o).response.details = some msg) ∧
      (∀ st txt, o 1 = .httpResp st txt →
        (processUpload d b o).response.status = some st ∧
        (processUpload d b o).response.gasResponse = some txt)) := by
  rw [processUpload_valid d b o vs hv hu, uploadLoop_transient_first o h0]
  refine ⟨processUpload_attempts_le_two, ?_, ?_, ?_, ?_⟩
  · cases h1 : o 1 with
    | netErr msg => simp [respondLoop_attempts]
    | httpResp st body =>
      by_cases hs : isSuccessStatus st <;> simp [hs, respondLoop_attempts]
  · cases h1 : o 1 with
    | netErr msg => simp [respondLoop_backoffMs]
    | httpResp st body =>
      by_cases hs : isSuccessStatus st <;> simp [hs, respondLoop_backoffMs]
  · intro st txt h1 hs
    simp [h1, hs, respondLoop]
  · intro h1
    cases h1e : o 1 with
    | netErr msg => simp [h1e, respondLoop]
    | httpResp st body =>
      have hst : 500 ≤ st := by simpa [isTransient, h1e] using h1
      simp [h1e, isSuccessStatus_of_ge_500 hst, respondLoop]

/-- Witness for C2 at a destination answering 500 then 200. -/
theorem upload_transient_retries_once_witness :
    (processUpload sampleUrl sampleBody oracle500then200).attempts = 2 ∧
    (processUpload sampleUrl sampleBody oracle500then200).backoffMs = 500 ∧
    (processUpload sampleUrl sampleBody oracle500then200).response.ok = true ∧
    (processUpload sampleUrl sampleBody oracle500then200).response.status = some 200 := by
  have h := upload_transient_retries_once sampleUrl sampleBody oracle500then200
    [["BTCUSD", "1.23"]] rfl (by decide) (by decide)
  have hs := h.2.2.2.1 200 "done" rfl (by decide)
  exact ⟨h.2.1, h.2.2.1, hs.1, hs.2.2⟩

/-- C3: on a valid request whose first attempt returns a status that is
neither 2xx nor 302 nor ≥ 500, the relay answers 502 immediately with
`ok:false`, the upstream status and the raw upstream body, having made
exactly one attempt and slept no backoff. -/
theorem upload_permanent_failure_no_retry (d : String) (b : UploadBody)
    (o : Nat → AttemptResult) (vs : List Row) (st : Nat) (body : String)
    (hv : b.values = JField.seq vs)
    (hu : resolveScriptUrl d b.googleScriptUrl ≠ "")
    (h0 : o 0 = .httpResp st body)
    (hns : isSuccessStatus st = false) (hlt : st < 500) :
    processUpload d b o =
      { response := { httpStatus := 502, ok := false,
                      error := some ("Forward failed " ++ toString st),
                      status := some st, gasResponse := some body,
                      elapsedReported := false },
        outcome := some (.permFail st body), attempts := 1, backoffMs := 0,
        forwardedBody := some (forwardOf b vs) } := by
  have h5 : ¬ (500 ≤ st) := by omega
  rw [processUpload_valid d b o vs hv hu]
  rw [show uploadLoop o 2 2 0 none 0 = ⟨.permFail st body, 1, 0⟩ by
    simp [uploadLoop, h0, hns, h5]]
  rfl

/-- Witness for C3 at a destination answering 403 Forbidden. -/
theorem upload_permanent_failure_no_retry_witness :
    processUpload sampleUrl sampleBody oracle403 =
      { response := { httpStatus := 502, ok := false,
                      error := some ("Forward failed " ++ toString 403),
                      status := some 403, gasResponse := some "Forbidden",
                      elapsedReported := false },
        outcome := some (.permFail 403 "Forbidden"), attempts := 1, backoffMs := 0,
        forwardedBody := some (forwardOf sampleBody [["BTCUSD", "1.23"]]) } :=
  upload_permanent_failure_no_retry sampleUrl sampleBody oracle403
    [["BTCUSD", "1.23"]] 403 "Forbidden" rfl (by decide) rfl (by decide) (by decide)

/-- C4: a 302 from the destination is classified as Success: the relay
answers 200 with `ok:true`, `status: 302` and the raw upstream body text —
whether the 302 arrives on the first attempt or on the retry after a
transient first attempt. -/
theorem upload_302_treated_as_success (d : String) (b : UploadBody)
    (o : Nat → AttemptResult) (vs : List Row) (txt : String)
    (hv : b.values = JField.seq vs)
    (hu : resolveScriptUrl d b.googleScriptUrl ≠ "") :
    (o 0 = .httpResp 302 txt →
      processUpload d b o =
        { response := { httpStatus := 200, ok := true, forwarded := some true,
                        status := some 302, text := some txt, elapsedReported := true },
          outcome := some (.success 302 txt), attempts := 1, backoffMs := 0,
          forwardedBody := some (forwardOf b vs) }) ∧
    (isTransient (o 0) = true → o 1 = .httpResp 302 txt →
      processUpload d b o =
        { response := { httpStatus := 200, ok := true, forwarded := some true,
                        status := some 302, text := some txt, elapsedReported := true },
          outcome := some (.success 302 txt), attempts := 2, backoffMs := 500,
          forwardedBody := some (forwardOf b vs) }) := by
  constructor
  · intro h0
    rw [processUpload_valid d b o vs hv hu]
    rw [show uploadLoop o 2 2 0 none 0 = ⟨.success 302 txt, 1, 0⟩ by
      simp [uploadLoop, h0, isSuccessStatus]]
    rfl
  · intro h0 h1
    rw [processUpload_valid d b o vs hv hu, uploadLoop_transient_first o h0]
    rw [show (match o 1 with
        | .httpResp st body =>
          if isSuccessStatus st then (⟨.success st body, 2, 500⟩ : LoopResult)
          else ⟨.permFail st body, 2, 500⟩
        | .netErr msg => ⟨.exhausted (some msg), 2, 500⟩) =
          (⟨.success 302 txt, 2, 500⟩ : LoopResult) by
      simp [h1, isSuccessStatus]]
    rfl

/-- Witness for C4 at a destination answering 302. -/
theorem upload_302_treated_as_success_witness :
    processUpload sampleUrl sampleBody oracle302 =
      { response := { httpStatus := 200, ok := true, forwarded := some true,
                      status := some 302, text := some "redirect",
                      elapsedReported := true },
        outcome := some (.success 302 "redirect"), attempts := 1, backoffMs := 0,
        forwardedBody := some (forwardOf sampleBody [["BTCUSD", "1.23"]]) } :=
  (upload_302_treated_as_success sampleUrl sampleBody oracle302
    [["BTCUSD", "1.23"]] "redirect" rfl (by decide)).1 rfl

/-- C5 counterexample: at a concrete valid request against a destination
answering 403, the pipeline produces the permanent-failure outcome and a
502 response whose body carries no `elapsed` field — refuting the claim
that every outcome reports the elapsed time. -/
theorem upload_permfail_elapsed_missing :
    (processUpload sampleUrl sampleBody oracle403).response.httpStatus = 502 ∧
    (processUpload sampleUrl sampleBody oracle403).outcome =
      some (.permFail 403 "Forbidden") ∧
    (processUpload sampleUrl sampleBody oracle403).response.elapsedReported = false := by
  decide

/-- Which pipeline outcomes carry an `elapsed` field in their response
body: the success response and the exhausted-retry 502 do; the inline
permanent-failure 502 and the pre-loop validation 400s do not. -/
def elapsedReportedFor : Option LoopOut → Bool
  | some (.success _ _) => true
  | some (.exhausted _) => true
  | _ => false

/-- C5 (amended): of the handler's outcomes, the success response, the
exhausted-retry 502 and the internal-error 500 all report the elapsed
wall-clock time, but the permanent-failure 502 omits it: an escaping
exception is answered with the catch-all `internalErrorResponse`, which
carries `elapsed` (and is a 500), and in the non-exceptional case the
response carries `elapsed` exactly when the pipeline outcome is a success
or an exhausted retry — not when it is the permanent failure. -/
theorem upload_elapsed_reporting (d : String) (b : UploadBody)
    (o : Nat → AttemptResult) (exn : Option String) :
    (∀ msg, exn = some msg →
      uploadHandler d b o exn = internalErrorResponse msg ∧
      (internalErrorResponse msg).elapsedReported = true ∧
      (internalErrorResponse msg).httpStatus = 500) ∧
    (exn = none →
      (uploadHandler d b o exn).elapsedReported =
        elapsedReportedFor (processUpload d b o).outcome) := by
  constructor
  · intro msg he
    subst he
    exact ⟨rfl, rfl, rfl⟩
  · intro he
    subst he
    show (processUpload d b o).response.elapsedReported = _
    unfold processUpload
    by_cases hu : resolveScriptUrl d b.googleScriptUrl = ""
    · simp [hu, elapsedReportedFor]
    · cases hv : b.values with
      | missing => simp [hu, hv, invalidValuesResult, elapsedReportedFor]
      | nonSeq => simp [hu, hv, invalidValuesResult, elapsedReportedFor]
      | seq vs =>
        simp only [hu, hv, if_neg hu]
        generalize uploadLoop o 2 2 0 none 0 = r
        rcases r with ⟨out, a, bk⟩
        cases out <;> simp [respondLoop, elapsedReportedFor]

/-- Witness for C5 (amended): a concrete escaping exception is answered by
the elapsed-carrying internal-error 500, and a concrete non-exceptional
request reports elapsed exactly as its outcome prescribes. -/
theorem upload_elapsed_reporting_witness :
    uploadHandler sampleUrl sampleBody oracle403 (some "boom") =
      internalErrorResponse "boom" ∧
    (internalErrorResponse "boom").elapsedReported = true ∧
    (internalErrorResponse "boom").httpStatus = 500 ∧
    (uploadHandler sampleUrl sampleBody oracle403 none).elapsedReported =
      elapsedReportedFor (processUpload sampleUrl sampleBody oracle403).outcome := by
  have h1 := (upload_elapsed_reporting sampleUrl sampleBody oracle403
    (some "boom")).1 "boom" rfl
  have h2 := (upload_elapsed_reporting sampleUrl sampleBody oracle403 none).2 rfl
  exact ⟨h1.1, h1.2.1, h1.2.2, h2⟩

/-- C6: on a valid forwarded request the body sent to the destination is
exactly the normalized envelope `{ sheetName, values }`: `values` is copied
unchanged, `sheetName` defaults to `"Sheet1"` when absent, the envelope is
determined by `sheetName` and `values` alone, and two requests differing
only in their `googleScriptUrl` override forward the identical body. -/
theorem upload_forwards_normalized_envelope (d : String) (b : UploadBody)
    (o : Nat → AttemptResult) (vs : List Row)
    (hv : b.values = JField.seq vs)
    (hu : resolveScriptUrl d b.googleScriptUrl ≠ "") :
    (processUpload d b o).forwardedBody = some (forwardOf b vs) ∧
    (forwardOf b vs).values = vs ∧
    (b.sheetName = none → (forwardOf b vs).sheetName = "Sheet1") ∧
    (∀ b2 : UploadBody, b2.sheetName = b.sheetName → forwardOf b2 vs = forwardOf b vs) ∧
    (∀ b2 : UploadBody, b2.sheetName = b.sheetName → b2.values = b.values →
      resolveScriptUrl d b2.googleScriptUrl ≠ "" →
      (processUpload d b2 o).forwardedBody = (processUpload d b o).forwardedBody) := by
  refine ⟨?_, rfl, ?_, ?_, ?_⟩
  · rw [processUpload_valid d b o vs hv hu]
    exact respondLoop_forwardedBody _ _
  · intro h
    simp [forwardOf, h, jsOr]
  · intro b2 h
    simp [forwardOf, h]
  · intro b2 hsheet hvals hu2
    rw [processUpload_valid d b o vs hv hu,
        processUpload_valid d b2 o vs (hvals.trans hv) hu2,
        respondLoop_forwardedBody, respondLoop_forwardedBody]
    simp [forwardOf, hsheet]

/-- Witness for C6: a request with an override forwards the same envelope
as the same request without one, values unchanged and sheet name defaulted. -/
theorem upload_forwards_normalized_envelope_witness :
    (processUpload sampleUrl sampleBody oracle302).forwardedBody =
      some (forwardOf sampleBody [["BTCUSD", "1.23"]]) ∧
    (forwardOf sampleBody [["BTCUSD", "1.23"]]).sheetName = "Sheet1" ∧
    (processUpload sampleUrl
        { sampleBody with googleScriptUrl := some "https://other.example/exec" }
        oracle302).forwardedBody =
      (processUpload sampleUrl sampleBody oracle302).forwardedBody := by
  have h := upload_forwards_normalized_envelope sampleUrl sampleBody oracle302
    [["BTCUSD", "1.23"]] rfl (by decide)
  exact ⟨h.1, h.2.2.1 rfl,
    h.2.2.2.2 { sampleBody with googleScriptUrl := some "https://other.example/exec" }
      rfl rfl (by decide)⟩

/-- C7 counterexample: the bitunix server's `/fetch-pif` (src/server.js)
never inspects the HTTP status, so on an upstream 404 whose body still
parses to `{success:true}` it answers a success envelope — although a
non-success HTTP status is one of the claim's three failure cases. -/
theorem fetchPif_bitunix_ignores_status :
    specFetchFailureCase (.httpResp 404 ⟨true, ["entry"]⟩) = true ∧
    (fetchPifBitunix (.httpResp 404 ⟨true, ["entry"]⟩)).success = true ∧
    (fetchPifBitunix (.httpResp 404 ⟨true, ["entry"]⟩)).httpStatus = 200 ∧
    (fetchPifBitunix (.httpResp 404 ⟨true, ["entry"]⟩)).error = none := by
  decide

/-- C7 (amended): the sheet-relay server's `/fetch-pif`
(src/unnamed/part_000) returns a 500 failure envelope carrying an error
message in exactly the three stated cases — transport failure, non-success
HTTP status, or `success:false` in the parsed envelope — and otherwise
passes the upstream data through; the bitunix server's `/fetch-pif`
(src/server.js) performs no HTTP-status check, so its failure cases are
exactly transport failure or `success:false`.  Neither retries: both are
single-attempt functions of one outbound result. -/
theorem fetchPif_failure_characterization (r : FetchAttempt) :
    ((fetchPifSheetRelay r).success = false ↔ specFetchFailureCase r = true) ∧
    (specFetchFailureCase r = false →
      fetchPifSheetRelay r =
        { httpStatus := 200, success := true, data := some (attemptData r) }) ∧
    ((fetchPifSheetRelay r).success = false →
      (fetchPifSheetRelay r).httpStatus = 500 ∧ (fetchPifSheetRelay r).error ≠ none) ∧
    ((fetchPifBitunix r).success = false ↔ bitunixFetchFailureCase r = true) ∧
    (bitunixFetchFailureCase r = false →
      fetchPifBitunix r =
        { httpStatus := 200, success := true, data := some (attemptData r) }) ∧
    ((fetchPifBitunix r).success = false →
      (fetchPifBitunix r).httpStatus = 500 ∧ (fetchPifBitunix r).error ≠ none) := by
  cases r with
  | netErr msg =>
    simp [fetchPifSheetRelay, fetchPifBitunix, specFetchFailureCase,
      bitunixFetchFailureCase]
  | httpResp st env =>
    by_cases hok : 200 ≤ st ∧ st < 300 <;> by_cases hs : env.success = true <;>
      (simp_all [fetchPifSheetRelay, fetchPifBitunix, specFetchFailureCase,
        bitunixFetchFailureCase, attemptData]; try omega)

/-- Witness for C7 (amended) at an upstream 200 with a success envelope
and at an upstream `{success:false}` envelope. -/
theorem fetchPif_failure_characterization_witness :
    fetchPifSheetRelay (.httpResp 200 ⟨true, ["e1"]⟩) =
      { httpStatus := 200, success := true, data := some ["e1"] } ∧
    (fetchPifSheetRelay (.httpResp 200 ⟨false, []⟩)).httpStatus = 500 ∧
    (fetchPifBitunix (.httpResp 200 ⟨false, []⟩)).httpStatus = 500 := by
  refine ⟨(fetchPif_failure_characterization (.httpResp 200 ⟨true, ["e1"]⟩)).2.1
      (by decide), ?_, ?_⟩
  · exact ((fetchPif_failure_characterization (.httpResp 200 ⟨false, []⟩)).2.2.1
      (by decide)).1
  · exact ((fetchPif_failure_characterization (.httpResp 200 ⟨false, []⟩)).2.2.2.2.2
      (by decide)).1

/-- C8: `/update-symbols` answers 400 `Invalid symbols format` and leaves
the stored snapshot unchanged when `symbols` is missing or not a sequence;
otherwise it replaces the snapshot wholesale — independently of what was
stored before — defaulting `fullData` to the empty sequence and `timestamp`
to the current time when omitted, and answers success with `count` equal to
the number of symbols written. -/
theorem update_symbols_spec (prev : Snapshot) (now : String) (b : SymbolsBody) :
    ((b.symbols = JField.missing ∨ b.symbols = JField.nonSeq) →
      updateSymbols prev now b =
        (prev, { httpStatus := 400, success := false,
                 error := some "Invalid symbols format" })) ∧
    (∀ xs, b.symbols = JField.seq xs →
      (updateSymbols prev now b).1 =
        { symbols := xs, fullData := b.fullData.getD [],
          timestamp := some (jsOr b.timestamp now) } ∧
      (∀ prev2, (updateSymbols prev2 now b).1 = (updateSymbols prev now b).1) ∧
      (b.fullData = none → (updateSymbols prev now b).1.fullData = []) ∧
      (b.timestamp = none → (updateSymbols prev now b).1.timestamp = some now) ∧
      (updateSymbols prev now b).2 =
        { httpStatus := 200, success := true,
          message := some (toString xs.length ++ " symbols stored"),
          count := some xs.length }) := by
  constructor
  · rintro (h | h) <;> simp [updateSymbols, h]
  · intro xs h
    refine ⟨by simp [updateSymbols, h], fun prev2 => by simp [updateSymbols, h],
      ?_, ?_, by simp [updateSymbols, h]⟩
    · intro hf
      simp [updateSymbols, h, hf]
    · intro ht
      simp [updateSymbols, h, ht, jsOr]

/-- Witness for C8: a valid two-symbol write and an invalid write. -/
theorem update_symbols_spec_witness :
    (updateSymbols initialSnapshot "2026-10-12T00:00:00Z"
        { symbols := JField.seq ["BTCUSD", "ETHUSD"], fullData := none,
          timestamp := none }).2.count = some 2 ∧
    (updateSymbols initialSnapshot "2026-10-12T00:00:00Z"
        { symbols := JField.seq ["BTCUSD", "ETHUSD"], fullData := none,
          timestamp := none }).1.timestamp = some "2026-10-12T00:00:00Z" ∧
    (updateSymbols initialSnapshot "2026-10-12T00:00:00Z"
        { symbols := JField.nonSeq, fullData := none, timestamp := none }) =
      (initialSnapshot, { httpStatus := 400, success := false,
                          error := some "Invalid symbols format" }) := by
  have h1 := (update_symbols_spec initialSnapshot "2026-10-12T00:00:00Z"
    { symbols := JField.seq ["BTCUSD", "ETHUSD"], fullData := none,
      timestamp := none }).2 ["BTCUSD", "ETHUSD"] rfl
  have h2 := (update_symbols_spec initialSnapshot "2026-10-12T00:00:00Z"
    { symbols := JField.nonSeq, fullData := none, timestamp := none }).1
    (Or.inr rfl)
  exact ⟨by rw [h1.2.2.2.2]; rfl, h1.2.2.2.1 rfl, h2⟩

/-- C9: after an accepted write of the sequence `xs`, a read with no
intervening write answers `{success:true}` with the same symbols in the
same order, their count and the stored timestamp when `xs` is non-empty,
and the not-available sentinel when `xs` is empty; the read of the initial
state is that same sentinel — a 200 response with `success:false`, an
explanatory message, the empty list and count 0, not an error. -/
theorem symbols_read_after_write (prev : Snapshot) (now : String)
    (b : SymbolsBody) (xs : List String) (h : b.symbols = JField.seq xs) :
    (xs ≠ [] →
      getSymbols (updateSymbols prev now b).1 =
        { httpStatus := 200, success := true, symbols := xs, count := xs.length,
          timestamp := some (some (jsOr b.timestamp now)) }) ∧
    (xs = [] → getSymbols (updateSymbols prev now b).1 = noSymbolsResponse) ∧
    getSymbols initialSnapshot = noSymbolsResponse ∧
    noSymbolsResponse.httpStatus = 200 ∧
    noSymbolsResponse.success = false ∧
    noSymbolsResponse.symbols = [] ∧
    noSymbolsResponse.count = 0 ∧
    noSymbolsResponse.message ≠ none := by
  refine ⟨?_, ?_, by simp [getSymbols, initialSnapshot], rfl, rfl, rfl, rfl,
    by simp [noSymbolsResponse]⟩
  · intro hne
    simp [updateSymbols, h, getSymbols, List.length_eq_zero, hne]
  · intro he
    simp [updateSymbols, h, getSymbols, he, noSymbolsResponse]

/-- Witness for C9: write `["BTCUSD","ETHUSD"]` then read. -/
theorem symbols_read_after_write_witness :
    getSymbols (updateSymbols initialSnapshot "2026-10-12T00:00:00Z"
        { symbols := JField.seq ["BTCUSD", "ETHUSD"], fullData := none,
          timestamp := none }).1 =
      { httpStatus := 200, success := true, symbols := ["BTCUSD", "ETHUSD"],
        count := 2, timestamp := some (some "2026-10-12T00:00:00Z") } ∧
    getSymbols initialSnapshot = noSymbolsResponse :=
  have h := symbols_read_after_write initialSnapshot "2026-10-12T00:00:00Z"
    { symbols := JField.seq ["BTCUSD", "ETHUSD"], fullData := none,
      timestamp := none } ["BTCUSD", "ETHUSD"] rfl
  ⟨h.1 (by decide), h.2.2.1⟩

/-- C10: a write with an empty `symbols` sequence is accepted — 200 with
`success:true` and `count:0`, not a 400 — and replaces the snapshot with an
empty one, after which a read answers exactly what it answers in the
never-written initial state. -/
theorem empty_symbols_write_accepted (prev : Snapshot) (now : String)
    (b : SymbolsBody) (h : b.symbols = JField.seq []) :
    (updateSymbols prev now b).2 =
      { httpStatus := 200, success := true, message := some "0 symbols stored",
        count := some 0 } ∧
    (updateSymbols prev now b).1.symbols = [] ∧
    getSymbols (updateSymbols prev now b).1 = getSymbols initialSnapshot := by
  refine ⟨by simp [updateSymbols, h]; rfl, by simp [updateSymbols, h], ?_⟩
  simp [updateSymbols, h, getSymbols, initialSnapshot]

/-- Witness for C10: a concrete empty write. -/
theorem empty_symbols_write_accepted_witness :
    (updateSymbols initialSnapshot "2026-10-12T00:00:00Z"
        { symbols := JField.seq [], fullData := none, timestamp := none }).2 =
      { httpStatus := 200, success := true, message := some "0 symbols stored",
        count := some 0 } ∧
    getSymbols (updateSymbols initialSnapshot "2026-10-12T00:00:00Z"
        { symbols := JField.seq [], fullData := none, timestamp := none }).1 =
      getSymbols initialSnapshot :=
  have h := empty_symbols_write_accepted initialSnapshot "2026-10-12T00:00:00Z"
    { symbols := JField.seq [], fullData := none, timestamp := none } rfl
  ⟨h.1, h.2.2⟩

end BitunixRelay
